import Mathlib

/-!
Shallow embedding of the RSS feed → playable episode gateway of
`Server_backup.cjs` (the `/episodes` route, its `cacheMW` caching
middleware, and the field-precedence normalization of feed items),
together with theorems settling the specification's claims about it.

JavaScript optional fields are modelled as `Option String`; a missing
field (`undefined`) is `none`, a present field (possibly the empty
string) is `some s`.  JavaScript truthiness on strings (`""` is falsy)
is modelled by `jsTruthy`.
-/

set_option autoImplicit false

namespace Pods

/-- JavaScript truthiness restricted to optional strings: `undefined`/`null`
and the empty string are falsy, every other string is truthy. -/
def jsTruthy : Option String → Bool
  | none => false
  | some s => !s.isEmpty

/-- The JavaScript expression `a || b` on optional strings: yields `a` when
`a` is truthy, otherwise yields `b` (which may itself be `none`). -/
def jsOr (a b : Option String) : Option String :=
  if jsTruthy a then a else b

/-- The JavaScript expression `a || d` where the final fallback `d` is a
plain string, as in `item.title || "Untitled Episode"`. -/
def jsOrD (a : Option String) (d : String) : String :=
  match a with
  | some s => if s.isEmpty then d else s
  | none => d

/-- A field is absent or the empty string — exactly the falsy strings. -/
def blank (o : Option String) : Prop := o = none ∨ o = some ""

/-- The attribute bag of one `media:content` entry: models `mc[i].$`
(`url` and `type` attributes) of the xml2js-parsed extension. -/
structure MCAttr where
  url : Option String
  type : Option String
deriving DecidableEq, Repr

/-- One entry of the `media:content` custom field (`item.mediaContent[i]`);
`attr` models its `$` attribute object, which may be missing. -/
structure MediaContent where
  attr : Option MCAttr
deriving DecidableEq, Repr

/-- `item.enclosure` with its `url` and `type` fields. -/
structure Enclosure where
  url : Option String
  type : Option String
deriving DecidableEq, Repr

/-- An `itunes:image`-style object carrying an `href` field, as read by
`item.itunesImage?.href` and `item["itunes:image"]?.href`. -/
structure ArtObj where
  href : Option String
deriving DecidableEq, Repr

/-- `item.itunes` as used by the route: only `duration` is read. -/
structure ItemItunes where
  duration : Option String
deriving DecidableEq, Repr

/-- One raw parsed feed item, with exactly the fields the route reads.
`itunesImage` models `item.itunesImage` (the custom-field mapping of
`itunes:image`); `itunesImageRaw` models the second lookup
`item["itunes:image"]`.  `mediaContent = none` covers the
`Array.isArray(item.mediaContent)` guard being false. -/
structure RawItem where
  guid : Option String
  title : Option String
  contentSnippet : Option String
  summary : Option String
  description : Option String
  pubDate : Option String
  link : Option String
  enclosure : Option Enclosure
  mediaContent : Option (List MediaContent)
  itunesImage : Option ArtObj
  itunesImageRaw : Option ArtObj
  itunes : Option ItemItunes
  itunesDuration : Option String
deriving DecidableEq, Repr

/-- `feed.image` (the generic RSS channel image), read as `feed.image?.url`. -/
structure FeedImage where
  url : Option String
deriving DecidableEq, Repr

/-- `feed.itunes`: the route reads `feed.itunes?.author`; `image` is the
feed-level itunes artwork (`feed.itunes?.image`), present in the parsed
object although `Server_backup.cjs` never reads it. -/
structure FeedItunes where
  author : Option String
  image : Option String
deriving DecidableEq, Repr

/-- A parsed feed document as handed to the route by `rss.parseURL`.
A missing `items` array is modelled as `[]`. -/
structure Feed where
  title : Option String
  image : Option FeedImage
  itunes : Option FeedItunes
  items : List RawItem
deriving DecidableEq, Repr

/-- The canonical episode record built by the route's `map` callback. -/
structure Episode where
  guid : Option String
  title : String
  description : String
  pubDate : Option String
  link : Option String
  mediaUrl : Option String
  mediaType : Option String
  image : Option String
  duration : Option String
deriving DecidableEq, Repr

/-- The `url` attribute of the first `media:content` entry:
`mc[0]?.$?.url` after `const mc = Array.isArray(...) ? ... : []`. -/
def mcFirstUrl (it : RawItem) : Option String :=
  ((it.mediaContent.getD []).head?.bind MediaContent.attr).bind MCAttr.url

/-- The `type` attribute of the first `media:content` entry: `mc[0]?.$?.type`. -/
def mcFirstType (it : RawItem) : Option String :=
  ((it.mediaContent.getD []).head?.bind MediaContent.attr).bind MCAttr.type

/-- JavaScript `String.prototype.trim`: strip whitespace from both ends.
Implemented structurally over the character list so that concrete inputs
evaluate inside the kernel. -/
def trimStr (s : String) : String :=
  String.mk (((s.data.dropWhile Char.isWhitespace).reverse.dropWhile
    Char.isWhitespace).reverse)

/-- The route's `map` callback (`Server_backup.cjs` lines 247–275): builds
one Episode from a raw item, using JavaScript `||` chains.  The trailing
`|| null` of the source collapses a falsy last candidate to `none`,
which `jsOr _ none` reproduces. -/
def normalizeItem (f : Feed) (it : RawItem) : Episode :=
  { guid := jsOr it.guid none
    title := trimStr (jsOrD it.title "Untitled Episode")
    description := jsOrD it.contentSnippet (jsOrD it.summary (jsOrD it.description ""))
    pubDate := jsOr it.pubDate none
    link := jsOr it.link none
    mediaUrl := jsOr (it.enclosure.bind Enclosure.url) (jsOr (mcFirstUrl it) none)
    mediaType := jsOr (it.enclosure.bind Enclosure.type) (jsOr (mcFirstType it) none)
    image := jsOr (it.itunesImage.bind ArtObj.href)
      (jsOr (it.itunesImageRaw.bind ArtObj.href)
        (jsOr (f.image.bind FeedImage.url) none))
    duration := jsOr (it.itunes.bind ItemItunes.duration) (jsOr it.itunesDuration none) }

/-- The top-level `author` of the success body:
`feed.itunes?.author || feed.title || "Unknown"`. -/
def authorOf (f : Feed) : String :=
  jsOrD (f.itunes.bind FeedItunes.author) (jsOrD f.title "Unknown")

/-- A JSON response body of the route: the success shape
`{title, author, episodes}`, plain errors `{error}`, and errors with
diagnostics `{error, details}`. -/
inductive Body where
  | success (title : Option String) (author : String) (episodes : List Episode)
  | err (error : String)
  | errDetails (error : String) (details : String)
deriving DecidableEq, Repr

/-- The part of the handler that runs on a successfully parsed feed
(`Server_backup.cjs` lines 244–287): the empty-feed check, the map into
episodes, the playability filter `!!ep.mediaUrl`, the empty-result check,
and the success body. -/
def handleFeed (f : Feed) : Nat × Body :=
  if f.items.isEmpty then (404, Body.err "No episodes found")
  else
    let eps := (f.items.map (normalizeItem f)).filter (fun e => jsTruthy e.mediaUrl)
    if eps.isEmpty then (404, Body.err "No playable media in feed")
    else (200, Body.success f.title (authorOf f) eps)

/-- Outcome of `Promise.race([rss.parseURL(feedUrl), timeoutPromise])`:
a parsed feed, a rejection with a message, or the timeout rejection. -/
inductive FetchRes where
  | ok (f : Feed)
  | error (msg : String)
  | timedOut
deriving DecidableEq, Repr

/-- The fixed fetch timeout of the route: `setTimeout(..., 9000)`. -/
def feedTimeoutMs : Nat := 9000

/-- Models the race of the feed retrieval against the 9-second timer:
if the retrieval takes strictly longer than `feedTimeoutMs` milliseconds,
the timeout promise rejects first and the race yields `timedOut`;
otherwise the retrieval's own outcome wins. -/
def race (fetchMs : Nat) (r : FetchRes) : FetchRes :=
  if feedTimeoutMs < fetchMs then FetchRes.timedOut else r

/-- Dispatch on the race outcome: a parsed feed goes to `handleFeed`; any
rejection lands in the catch branch (lines 288–294), which renders
`404 {error: "Feed not found or unavailable", details: err.message}`.
The timeout rejection's message is `"Feed fetch timed out"` (line 239). -/
def handleFetchRes : FetchRes → Nat × Body
  | FetchRes.ok f => handleFeed f
  | FetchRes.error m => (404, Body.errDetails "Feed not found or unavailable" m)
  | FetchRes.timedOut =>
      (404, Body.errDetails "Feed not found or unavailable" "Feed fetch timed out")

/-- Hex digit value, for percent-decoding. -/
def hexVal (c : Char) : Option Nat :=
  if '0' ≤ c ∧ c ≤ '9' then some (c.toNat - '0'.toNat)
  else if 'a' ≤ c ∧ c ≤ 'f' then some (c.toNat - 'a'.toNat + 10)
  else if 'A' ≤ c ∧ c ≤ 'F' then some (c.toNat - 'A'.toNat + 10)
  else none

/-- Percent-decoding on a character list; `none` models the `URIError`
that `decodeURIComponent` throws on a malformed escape. -/
def percentDecode : List Char → Option (List Char)
  | [] => some []
  | '%' :: a :: b :: rest =>
      match hexVal a, hexVal b with
      | some x, some y => (percentDecode rest).map (fun l => Char.ofNat (16 * x + y) :: l)
      | _, _ => none
  | '%' :: _ => none
  | c :: rest => (percentDecode rest).map (fun l => c :: l)

/-- ASCII-level model of `decodeURIComponent` (line 233): `none` when the
real function would throw.  Multi-byte UTF-8 escapes are outside what any
claim exercises. -/
def decodeURIComponent (s : String) : Option String :=
  (percentDecode s.data).map String.mk

/-- The scheme check `/^https?:\/\//i.test(feedUrl)` (line 234): the
string, lowercased, must begin with `http://` or `https://`.  Implemented
over character lists so that concrete inputs evaluate inside the kernel. -/
def isHttpUrl (s : String) : Bool :=
  List.isPrefixOf "http://".data (s.data.map Char.toLower) ||
  List.isPrefixOf "https://".data (s.data.map Char.toLower)

/-- The cache key built by the route registration (line 228):
`` `episodes:${req.query.feedUrl}` `` — the raw, still-encoded query
parameter; a missing parameter interpolates as the string `"undefined"`. -/
def cacheKey (raw : Option String) : String :=
  "episodes:" ++ raw.getD "undefined"

/-- The NodeCache contents visible to `cacheMW`, as an association list;
`set` prepends (NodeCache overwrites, and `lookup` finds the newest
entry first).  Entries persist for the request pairs the claims consider,
which all sit inside one TTL window; expiry is not modelled because no
claim exercises it. -/
def Cache : Type := List (String × Body)

/-- Result of one request to `/episodes`: the response (status and body;
`none` when `decodeURIComponent` throws and the async handler rejects
without responding), the cache contents afterwards, and whether the
fetch (`rss.parseURL`) was invoked. -/
structure ReqOut where
  resp : Option (Nat × Body)
  cache : Cache
  fetched : Bool

/-- One request through `cacheMW` and the route handler
(`Server_backup.cjs` lines 202–296).  `cacheMW` serves a hit through the
original `res.json` (status stays 200) without running the handler; on a
miss it overrides `res.json` so that EVERY body the handler emits —
success or error — is stored under the key before being sent.
The handler: missing/empty `feedUrl` → 400; decode+trim; scheme check →
400; otherwise fetch (`fetch` gives the race outcome for the decoded,
trimmed URL) and dispatch via `handleFetchRes`. -/
def processRequest (c : Cache) (raw : Option String) (fetch : String → FetchRes) :
    ReqOut :=
  match List.lookup (cacheKey raw) c with
  | some hit => { resp := some (200, hit), cache := c, fetched := false }
  | none =>
    match raw with
    | none =>
        { resp := some (400, Body.err "Missing feedUrl")
          cache := (cacheKey raw, Body.err "Missing feedUrl") :: c
          fetched := false }
    | some rawS =>
      if rawS.isEmpty then
        { resp := some (400, Body.err "Missing feedUrl")
          cache := (cacheKey (some rawS), Body.err "Missing feedUrl") :: c
          fetched := false }
      else
        match decodeURIComponent rawS with
        | none => { resp := none, cache := c, fetched := false }
        | some dec =>
          if isHttpUrl (trimStr dec) then
            { resp := some (handleFetchRes (fetch (trimStr dec)))
              cache := (cacheKey (some rawS), (handleFetchRes (fetch (trimStr dec))).2) :: c
              fetched := true }
          else
            { resp := some (400, Body.err "Invalid feed URL")
              cache := (cacheKey (some rawS), Body.err "Invalid feed URL") :: c
              fetched := false }

/-! ## Helper lemmas about the JavaScript truthiness combinators -/

theorem jsTruthy_false_iff (o : Option String) : jsTruthy o = false ↔ blank o := by
  cases o with
  | none => simp [jsTruthy, blank]
  | some s => simp [jsTruthy, blank, String.isEmpty_iff]

theorem isEmpty_false_of_ne {s : String} (h : s ≠ "") : s.isEmpty = false := by
  cases hh : s.isEmpty with
  | false => rfl
  | true => exact absurd ((String.isEmpty_iff s).mp hh) h

theorem jsTruthy_some_of_ne {s : String} (h : s ≠ "") : jsTruthy (some s) = true := by
  simp [jsTruthy, isEmpty_false_of_ne h]

theorem jsOr_pos {a : Option String} (b : Option String) (h : jsTruthy a = true) :
    jsOr a b = a := by
  simp [jsOr, h]

theorem jsOr_neg {a : Option String} (b : Option String) (h : jsTruthy a = false) :
    jsOr a b = b := by
  simp [jsOr, h]

theorem jsOrD_of_ne {s : String} (d : String) (h : s ≠ "") : jsOrD (some s) d = s := by
  simp [jsOrD, isEmpty_false_of_ne h]

theorem jsOrD_blank {o : Option String} (d : String) (h : blank o) : jsOrD o d = d := by
  rcases h with h | h <;> subst h
  · rfl
  · simp [jsOrD, show ("" : String).isEmpty = true from rfl]

/-- The final `|| null` collapse: a `jsOr _ none` chain is truthy exactly
when it is non-`none`, so the playability test `!!ep.mediaUrl` coincides
with `isSome` on the route's `mediaUrl` values. -/
theorem jsTruthy_jsOr_none (a b : Option String) :
    jsTruthy (jsOr a (jsOr b none)) = (jsOr a (jsOr b none)).isSome := by
  by_cases ha : jsTruthy a = true
  · rw [jsOr_pos _ ha, ha]
    cases a with
    | none => simp [jsTruthy] at ha
    | some s => rfl
  · rw [jsOr_neg _ (by simpa using ha)]
    by_cases hb : jsTruthy b = true
    · rw [jsOr_pos _ hb, hb]
      cases b with
      | none => simp [jsTruthy] at hb
      | some s => rfl
    · rw [jsOr_neg _ (by simpa using hb)]
      rfl

theorem mediaUrl_truthy_iff_isSome (f : Feed) (it : RawItem) :
    jsTruthy (normalizeItem f it).mediaUrl = (normalizeItem f it).mediaUrl.isSome := by
  simp only [normalizeItem]
  exact jsTruthy_jsOr_none _ _

/-- A raw item with every optional field absent, for building the concrete
feeds of the witnesses and counterexamples. -/
def emptyItem : RawItem :=
  { guid := none, title := none, contentSnippet := none, summary := none,
    description := none, pubDate := none, link := none, enclosure := none,
    mediaContent := none, itunesImage := none, itunesImageRaw := none,
    itunes := none, itunesDuration := none }

/-! ## C3: enclosure / media-content precedence -/

def itemC3 : RawItem :=
  { emptyItem with
    enclosure := some { url := some "", type := some "audio/mpeg" },
    mediaContent := some
      [{ attr := some { url := some "https://cdn.example/ep.mp3", type := some "audio/mp4" } }] }

def feedC3 : Feed := { title := none, image := none, itunes := none, items := [itemC3] }

/-- Claim C3 is false as stated: for an item that has both a primary
enclosure (whose `url` attribute is the empty string) and a media-content
extension entry, the normalized `mediaUrl` is the media-content URL, not
the enclosure URL — the JavaScript `||` chain skips the falsy empty
string, while the claim demands the enclosure URL win whenever both
fields are present. -/
theorem enclosure_precedence_cex :
    itemC3.enclosure = some { url := some "", type := some "audio/mpeg" } ∧
    itemC3.mediaContent = some
      [{ attr := some { url := some "https://cdn.example/ep.mp3", type := some "audio/mp4" } }] ∧
    (normalizeItem feedC3 itemC3).mediaUrl = some "https://cdn.example/ep.mp3" ∧
    (normalizeItem feedC3 itemC3).mediaUrl ≠ itemC3.enclosure.bind Enclosure.url := by
  exact ⟨rfl, rfl, rfl, by decide⟩

/-- Claim C3 amended: the primary enclosure's URL (resp. type) wins
whenever it is present and non-empty; when the enclosure URL (resp. type)
is absent or empty, the first media-content extension's attribute is used
when present and non-empty, and otherwise the field is null. -/
theorem enclosure_precedence_amended (f : Feed) (it : RawItem) :
    (∀ e u, it.enclosure = some e → e.url = some u → u ≠ "" →
      (normalizeItem f it).mediaUrl = some u) ∧
    (∀ e t, it.enclosure = some e → e.type = some t → t ≠ "" →
      (normalizeItem f it).mediaType = some t) ∧
    (blank (it.enclosure.bind Enclosure.url) → ∀ u, mcFirstUrl it = some u → u ≠ "" →
      (normalizeItem f it).mediaUrl = some u) ∧
    (blank (it.enclosure.bind Enclosure.url) → blank (mcFirstUrl it) →
      (normalizeItem f it).mediaUrl = none) ∧
    (blank (it.enclosure.bind Enclosure.type) → ∀ t, mcFirstType it = some t → t ≠ "" →
      (normalizeItem f it).mediaType = some t) ∧
    (blank (it.enclosure.bind Enclosure.type) → blank (mcFirstType it) →
      (normalizeItem f it).mediaType = none) := by
  simp only [normalizeItem]
  refine ⟨?_, ?_, ?_, ?_, ?_, ?_⟩
  · intro e u he hu hne
    have h1 : it.enclosure.bind Enclosure.url = some u := by
      rw [he, show (some e).bind Enclosure.url = e.url from rfl, hu]
    rw [h1, jsOr_pos _ (jsTruthy_some_of_ne hne)]
  · intro e t he ht hne
    have h1 : it.enclosure.bind Enclosure.type = some t := by
      rw [he, show (some e).bind Enclosure.type = e.type from rfl, ht]
    rw [h1, jsOr_pos _ (jsTruthy_some_of_ne hne)]
  · intro hb u hu hne
    rw [jsOr_neg _ ((jsTruthy_false_iff _).mpr hb), hu,
      jsOr_pos _ (jsTruthy_some_of_ne hne)]
  · intro hb hb'
    rw [jsOr_neg _ ((jsTruthy_false_iff _).mpr hb),
      jsOr_neg _ ((jsTruthy_false_iff _).mpr hb')]
  · intro hb t ht hne
    rw [jsOr_neg _ ((jsTruthy_false_iff _).mpr hb), ht,
      jsOr_pos _ (jsTruthy_some_of_ne hne)]
  · intro hb hb'
    rw [jsOr_neg _ ((jsTruthy_false_iff _).mpr hb),
      jsOr_neg _ ((jsTruthy_false_iff _).mpr hb')]

def itemC3w : RawItem :=
  { emptyItem with
    enclosure := some { url := some "https://host.example/one.mp3", type := some "audio/mpeg" },
    mediaContent := some
      [{ attr := some { url := some "https://cdn.example/two.mp3", type := some "audio/mp4" } }] }

def feedC3w : Feed := { title := none, image := none, itunes := none, items := [itemC3w] }

/-- Witness for the amended C3 at a concrete item with a non-empty
enclosure URL and a competing media-content entry. -/
theorem enclosure_precedence_amended_witness :
    (normalizeItem feedC3w itemC3w).mediaUrl = some "https://host.example/one.mp3" ∧
    (normalizeItem feedC3w itemC3w).mediaType = some "audio/mpeg" :=
  ⟨(enclosure_precedence_amended feedC3w itemC3w).1
      { url := some "https://host.example/one.mp3", type := some "audio/mpeg" }
      "https://host.example/one.mp3" rfl rfl (by decide),
    (enclosure_precedence_amended feedC3w itemC3w).2.1
      { url := some "https://host.example/one.mp3", type := some "audio/mpeg" }
      "audio/mpeg" rfl rfl (by decide)⟩

/-! ## C8: description precedence -/

def itemC8 : RawItem :=
  { emptyItem with
    contentSnippet := some ""
    summary := some "hello from the summary"
    description := some "full content text" }

def feedC8 : Feed := { title := none, image := none, itunes := none, items := [itemC8] }

/-- Claim C8 is false as stated: for an item whose content snippet is the
(non-null) empty string and whose summary is non-empty, the normalized
description is the summary, not the first non-null candidate (which would
be the empty snippet) — the JavaScript `||` chain skips falsy strings. -/
theorem description_precedence_cex :
    itemC8.contentSnippet = some "" ∧
    (normalizeItem feedC8 itemC8).description = "hello from the summary" ∧
    (normalizeItem feedC8 itemC8).description ≠ "" := by
  exact ⟨rfl, rfl, by decide⟩

/-- Claim C8 amended: the description is the first candidate of
content snippet, summary, full content that is present AND non-empty
(rather than merely non-null), and the empty string when all three are
absent or empty. -/
theorem description_precedence_amended (f : Feed) (it : RawItem) :
    (∀ s, it.contentSnippet = some s → s ≠ "" →
      (normalizeItem f it).description = s) ∧
    (blank it.contentSnippet → ∀ s, it.summary = some s → s ≠ "" →
      (normalizeItem f it).description = s) ∧
    (blank it.contentSnippet → blank it.summary →
      ∀ s, it.description = some s → s ≠ "" →
      (normalizeItem f it).description = s) ∧
    (blank it.contentSnippet → blank it.summary → blank it.description →
      (normalizeItem f it).description = "") := by
  simp only [normalizeItem]
  refine ⟨?_, ?_, ?_, ?_⟩
  · intro s hs hne
    rw [hs, jsOrD_of_ne _ hne]
  · intro hb s hs hne
    rw [jsOrD_blank _ hb, hs, jsOrD_of_ne _ hne]
  · intro hb hb' s hs hne
    rw [jsOrD_blank _ hb, jsOrD_blank _ hb', hs, jsOrD_of_ne _ hne]
  · intro hb hb' hb''
    rw [jsOrD_blank _ hb, jsOrD_blank _ hb', jsOrD_blank _ hb'']

def itemC8w : RawItem := { emptyItem with summary := some "only a summary" }

def feedC8w : Feed := { title := none, image := none, itunes := none, items := [itemC8w] }

/-- Witness for the amended C8: an item with no snippet falls back to its
non-empty summary. -/
theorem description_precedence_amended_witness :
    (normalizeItem feedC8w itemC8w).description = "only a summary" :=
  (description_precedence_amended feedC8w itemC8w).2.1 (Or.inl rfl)
    "only a summary" rfl (by decide)

/-! ## C9: image fallback chain -/

/-- The image fallback chain as §4.2 of the spec words it: item-level
artwork extension, else feed-level artwork extension (`feed.itunes.image`),
else feed-level generic image, else null — first non-null wins.  Declared
only to compare the spec's chain with the route's chain. -/
def imageChainSpec (f : Feed) (it : RawItem) : Option String :=
  match it.itunesImage.bind ArtObj.href with
  | some u => some u
  | none =>
    match f.itunes.bind FeedItunes.image with
    | some u => some u
    | none => f.image.bind FeedImage.url

def itemC9 : RawItem := emptyItem

def feedC9 : Feed :=
  { title := none, image := some { url := some "https://generic.example/cover.png" },
    itunes := some { author := none, image := some "https://feed-art.example/art.png" },
    items := [itemC9] }

/-- Claim C9 is false on the reference route: for an item with no
item-level artwork, in a feed that has BOTH a feed-level itunes artwork
and a generic channel image, the route resolves the episode image to the
generic channel image — its chain (`Server_backup.cjs` lines 259–263)
never consults the feed-level artwork extension that the claim's fallback
chain puts first. -/
theorem image_chain_cex :
    itemC9.itunesImage = none ∧
    feedC9.itunes.bind FeedItunes.image = some "https://feed-art.example/art.png" ∧
    (normalizeItem feedC9 itemC9).image = some "https://generic.example/cover.png" ∧
    imageChainSpec feedC9 itemC9 = some "https://feed-art.example/art.png" ∧
    (normalizeItem feedC9 itemC9).image ≠ imageChainSpec feedC9 itemC9 := by
  exact ⟨rfl, rfl, rfl, rfl, by decide⟩

/-- Claim C9 amended: the image is the item-level artwork href (looked up
first under the mapped `itunesImage` key, then under the raw
`itunes:image` key) when present and non-empty, else the feed-level
generic image URL when present and non-empty, else null; the feed-level
itunes artwork is never consulted (the episode image is invariant under
changing `feed.itunes`). -/
theorem image_chain_amended (f : Feed) (it : RawItem) :
    (∀ u, it.itunesImage.bind ArtObj.href = some u → u ≠ "" →
      (normalizeItem f it).image = some u) ∧
    (blank (it.itunesImage.bind ArtObj.href) →
      ∀ u, it.itunesImageRaw.bind ArtObj.href = some u → u ≠ "" →
      (normalizeItem f it).image = some u) ∧
    (blank (it.itunesImage.bind ArtObj.href) →
      blank (it.itunesImageRaw.bind ArtObj.href) →
      ∀ u, f.image.bind FeedImage.url = some u → u ≠ "" →
      (normalizeItem f it).image = some u) ∧
    (blank (it.itunesImage.bind ArtObj.href) →
      blank (it.itunesImageRaw.bind ArtObj.href) →
      blank (f.image.bind FeedImage.url) →
      (normalizeItem f it).image = none) ∧
    (∀ fi, (normalizeItem { f with itunes := fi } it).image =
      (normalizeItem f it).image) := by
  simp only [normalizeItem]
  refine ⟨?_, ?_, ?_, ?_, fun _ => trivial⟩
  · intro u hu hne
    rw [hu, jsOr_pos _ (jsTruthy_some_of_ne hne)]
  · intro hb u hu hne
    rw [jsOr_neg _ ((jsTruthy_false_iff _).mpr hb), hu,
      jsOr_pos _ (jsTruthy_some_of_ne hne)]
  · intro hb hb' u hu hne
    rw [jsOr_neg _ ((jsTruthy_false_iff _).mpr hb),
      jsOr_neg _ ((jsTruthy_false_iff _).mpr hb'), hu,
      jsOr_pos _ (jsTruthy_some_of_ne hne)]
  · intro hb hb' hb''
    rw [jsOr_neg _ ((jsTruthy_false_iff _).mpr hb),
      jsOr_neg _ ((jsTruthy_false_iff _).mpr hb'),
      jsOr_neg _ ((jsTruthy_false_iff _).mpr hb'')]

def itemC9w : RawItem :=
  { emptyItem with itunesImage := some { href := some "https://item-art.example/ep.png" } }

def feedC9w : Feed :=
  { title := none, image := some { url := some "https://generic.example/cover.png" },
    itunes := none, items := [itemC9w] }

/-- Witness for the amended C9: a concrete item-level artwork href wins. -/
theorem image_chain_amended_witness :
    (normalizeItem feedC9w itemC9w).image = some "https://item-art.example/ep.png" :=
  (image_chain_amended feedC9w itemC9w).1 "https://item-art.example/ep.png" rfl (by decide)

/-! ## C10: top-level author fallback -/

def itemC10 : RawItem :=
  { emptyItem with
    enclosure := some { url := some "https://cdn.example/ten.mp3", type := some "audio/mpeg" } }

def feedC10 : Feed :=
  { title := some "My Show", image := none,
    itunes := some { author := some "", image := none }, items := [itemC10] }

/-- Claim C10 is false as stated: on a feed whose itunes author field is
present but empty, the successful response's top-level author is the feed
title, not the (present) itunes author — the `||` chain skips the falsy
empty string. -/
theorem author_fallback_cex :
    feedC10.itunes.bind FeedItunes.author = some "" ∧
    (∃ eps, handleFeed feedC10 = (200, Body.success feedC10.title "My Show" eps)) ∧
    ("My Show" : String) ≠ "" := by
  exact ⟨rfl, ⟨[normalizeItem feedC10 itemC10], rfl⟩, by decide⟩

/-- Claim C10 amended: every successful response carries
`authorOf`, which is the feed-level itunes author when present and
non-empty, else the feed title when present and non-empty, else the
literal "Unknown". -/
theorem author_fallback_amended (f : Feed) :
    (∀ t a eps, handleFeed f = (200, Body.success t a eps) → a = authorOf f) ∧
    (∀ s, f.itunes.bind FeedItunes.author = some s → s ≠ "" → authorOf f = s) ∧
    (blank (f.itunes.bind FeedItunes.author) → ∀ s, f.title = some s → s ≠ "" →
      authorOf f = s) ∧
    (blank (f.itunes.bind FeedItunes.author) → blank f.title →
      authorOf f = "Unknown") := by
  refine ⟨?_, ?_, ?_, ?_⟩
  · intro t a eps h
    simp only [handleFeed] at h
    split at h
    · simp at h
    · split at h
      · simp at h
      · simp only [Prod.mk.injEq, Body.success.injEq] at h
        exact h.2.2.1.symm
  · intro s hs hne
    unfold authorOf
    rw [hs, jsOrD_of_ne _ hne]
  · intro hb s hs hne
    unfold authorOf
    rw [jsOrD_blank _ hb, hs, jsOrD_of_ne _ hne]
  · intro hb hb'
    unfold authorOf
    rw [jsOrD_blank _ hb, jsOrD_blank _ hb']

def feedC10w : Feed :=
  { title := some "A Show", image := none,
    itunes := some { author := some "Casey Host", image := none }, items := [itemC10] }

/-- Witness for the amended C10 at a feed with a non-empty itunes author,
applied both to the chain clause and to a concrete successful response. -/
theorem author_fallback_amended_witness :
    authorOf feedC10w = "Casey Host" ∧
    "Casey Host" = authorOf feedC10w :=
  ⟨(author_fallback_amended feedC10w).2.1 "Casey Host" rfl (by decide),
    (author_fallback_amended feedC10w).1 (some "A Show") "Casey Host"
      [normalizeItem feedC10w itemC10] rfl⟩

/-! ## C1: the pipeline returns exactly the playable items, in order -/

/-- Claim C1: for a parsed feed with at least one item whose
field-precedence-mapped `mediaUrl` resolves, the pipeline succeeds and its
episode sequence is exactly the normalization of the items with resolvable
`mediaUrl`, in original item order; consequently the episode count equals
the count of such items and every returned episode has a non-null
`mediaUrl`. -/
theorem episodes_exactly_playable_in_order (f : Feed)
    (h : ∃ it ∈ f.items, (normalizeItem f it).mediaUrl.isSome) :
    ∃ eps, handleFeed f = (200, Body.success f.title (authorOf f) eps) ∧
      eps = (f.items.filter (fun it => (normalizeItem f it).mediaUrl.isSome)).map
        (normalizeItem f) ∧
      eps.length = f.items.countP (fun it => (normalizeItem f it).mediaUrl.isSome) ∧
      ∀ e ∈ eps, e.mediaUrl.isSome := by
  obtain ⟨it0, hmem, hsome⟩ := h
  have hfil : (f.items.map (normalizeItem f)).filter (fun e => jsTruthy e.mediaUrl)
      = (f.items.filter (fun it => (normalizeItem f it).mediaUrl.isSome)).map
        (normalizeItem f) := by
    rw [List.filter_map]
    congr 1
    apply List.filter_congr
    intro it _
    simpa [Function.comp] using mediaUrl_truthy_iff_isSome f it
  have hitems : f.items.isEmpty = false :=
    List.isEmpty_eq_false.mpr (List.ne_nil_of_mem hmem)
  have hmem' : normalizeItem f it0
      ∈ (f.items.filter (fun it => (normalizeItem f it).mediaUrl.isSome)).map
        (normalizeItem f) :=
    List.mem_map_of_mem _ (List.mem_filter.mpr ⟨hmem, hsome⟩)
  have hepsne : ((f.items.filter
      (fun it => (normalizeItem f it).mediaUrl.isSome)).map
        (normalizeItem f)).isEmpty = false :=
    List.isEmpty_eq_false.mpr (List.ne_nil_of_mem hmem')
  refine ⟨_, ?_, rfl, ?_, ?_⟩
  · simp only [handleFeed, hitems, hfil, hepsne, Bool.false_eq_true, if_false]
  · rw [List.length_map, List.countP_eq_length_filter]
  · intro e he
    rw [List.mem_map] at he
    obtain ⟨it, hit, rfl⟩ := he
    exact (List.mem_filter.mp hit).2

def itemC1w : RawItem :=
  { emptyItem with
    enclosure := some { url := some "https://cdn.example/one.mp3", type := some "audio/mpeg" } }

def feedC1w : Feed :=
  { title := some "Feed One", image := none, itunes := none,
    items := [emptyItem, itemC1w] }

/-- Witness for C1: a two-item feed whose second item alone is playable
yields exactly that one normalized episode. -/
theorem episodes_exactly_playable_in_order_witness :
    (∃ it ∈ feedC1w.items, (normalizeItem feedC1w it).mediaUrl.isSome) ∧
    (∃ eps, handleFeed feedC1w = (200, Body.success feedC1w.title (authorOf feedC1w) eps) ∧
      eps = (feedC1w.items.filter
        (fun it => (normalizeItem feedC1w it).mediaUrl.isSome)).map (normalizeItem feedC1w) ∧
      eps.length = feedC1w.items.countP
        (fun it => (normalizeItem feedC1w it).mediaUrl.isSome) ∧
      ∀ e ∈ eps, e.mediaUrl.isSome) :=
  ⟨by decide, episodes_exactly_playable_in_order feedC1w (by decide)⟩

/-! ## C2: all items unplayable → distinct "no playable media" failure -/

/-- Claim C2: when a parsed feed has items but every item's mapped
`mediaUrl` is null, the pipeline fails with the dedicated
"No playable media in feed" not-found response, whose diagnostic differs
from the catch-branch response used for bad or unreachable feeds
(`ParseError`/`FetchError`/`Timeout` all render as
"Feed not found or unavailable"). -/
theorem noPlayableMedia_distinct_response (f : Feed)
    (hne : f.items ≠ [])
    (h : ∀ it ∈ f.items, (normalizeItem f it).mediaUrl = none) :
    handleFeed f = (404, Body.err "No playable media in feed") ∧
    (∀ d, Body.err "No playable media in feed"
      ≠ Body.errDetails "Feed not found or unavailable" d) ∧
    ("No playable media in feed" : String) ≠ "Feed not found or unavailable" := by
  refine ⟨?_, fun d => by simp, by decide⟩
  have hfil : (f.items.map (normalizeItem f)).filter (fun e => jsTruthy e.mediaUrl)
      = [] := by
    rw [List.filter_eq_nil_iff]
    intro e he
    rw [List.mem_map] at he
    obtain ⟨it, hit, rfl⟩ := he
    rw [mediaUrl_truthy_iff_isSome, h it hit]
    simp
  simp [handleFeed, List.isEmpty_eq_false.mpr hne, hfil]

def itemC2w : RawItem := { emptyItem with title := some "no media here" }

def feedC2w : Feed :=
  { title := some "Feed Two", image := none, itunes := none, items := [itemC2w] }

/-- Witness for C2 at a one-item feed with no media reference at all. -/
theorem noPlayableMedia_distinct_response_witness :
    feedC2w.items ≠ [] ∧
    (∀ it ∈ feedC2w.items, (normalizeItem feedC2w it).mediaUrl = none) ∧
    handleFeed feedC2w = (404, Body.err "No playable media in feed") :=
  ⟨by decide, by decide,
    (noPlayableMedia_distinct_response feedC2w (by decide) (by decide)).1⟩

/-! ## C7: timeout rendered identically to a fetch error -/

/-- Claim C7: a retrieval that exceeds the fixed 9-second timeout loses
the race and yields the timeout outcome, and the handler renders that
outcome exactly as it renders a `FetchError` — the same 404
`{error: "Feed not found or unavailable", details}` shape, with `details`
carrying the upstream diagnostic (the timeout's own message, resp. the
fetch error's message). -/
theorem timeout_rendered_as_fetchError (d : Nat) (r : FetchRes) (m : String)
    (hd : feedTimeoutMs < d) :
    race d r = FetchRes.timedOut ∧
    handleFetchRes FetchRes.timedOut
      = handleFetchRes (FetchRes.error "Feed fetch timed out") ∧
    handleFetchRes FetchRes.timedOut
      = (404, Body.errDetails "Feed not found or unavailable" "Feed fetch timed out") ∧
    (handleFetchRes (FetchRes.error m)).1 = 404 ∧
    (handleFetchRes (FetchRes.error m)).2
      = Body.errDetails "Feed not found or unavailable" m := by
  refine ⟨?_, rfl, rfl, rfl, rfl⟩
  simp [race, hd]

/-- Witness for C7 at a retrieval lasting 9001 ms. -/
theorem timeout_rendered_as_fetchError_witness :
    feedTimeoutMs < 9001 ∧
    race 9001 (FetchRes.error "socket hang up") = FetchRes.timedOut ∧
    handleFetchRes FetchRes.timedOut
      = handleFetchRes (FetchRes.error "Feed fetch timed out") :=
  ⟨by decide,
    (timeout_rendered_as_fetchError 9001 (FetchRes.error "socket hang up")
      "socket hang up" (by decide)).1,
    (timeout_rendered_as_fetchError 9001 (FetchRes.error "socket hang up")
      "socket hang up" (by decide)).2.1⟩

/-! ## Cache middleware lemmas shared by C4, C5, C6 -/

theorem lookup_cons_self (k : String) (b : Body) (c : Cache) :
    List.lookup k ((k, b) :: c) = some b := by
  simp [List.lookup]

/-- A request whose key is in the cache is served from the cache: status
200, the cached body, no handler run, no fetch, cache unchanged. -/
theorem processRequest_hit {c : Cache} {raw : Option String} {b : Body}
    (fetch : String → FetchRes) (h : List.lookup (cacheKey raw) c = some b) :
    processRequest c raw fetch
      = { resp := some (200, b), cache := c, fetched := false } := by
  unfold processRequest
  rw [h]

/-- Every request that produces a response leaves that response's body in
the cache under its key — `cacheMW` stores success AND error bodies alike,
because the handler emits them all through the overridden `res.json`. -/
theorem resp_cached (c : Cache) (raw : Option String) (fetch : String → FetchRes) :
    (processRequest c raw fetch).resp = none ∨
    ∃ st b, (processRequest c raw fetch).resp = some (st, b) ∧
      List.lookup (cacheKey raw) (processRequest c raw fetch).cache = some b := by
  unfold processRequest
  split
  next hit heq => exact Or.inr ⟨200, hit, rfl, heq⟩
  next heq =>
    split
    · exact Or.inr ⟨400, _, rfl, lookup_cons_self _ _ _⟩
    next rawS =>
      split
      · exact Or.inr ⟨400, _, rfl, lookup_cons_self _ _ _⟩
      · split
        · exact Or.inl rfl
        next dec hdec =>
          split
          · exact Or.inr ⟨_, _, rfl, lookup_cons_self _ _ _⟩
          · exact Or.inr ⟨400, _, rfl, lookup_cons_self _ _ _⟩

/-! ## C4: cache key and idempotence -/

def feedC4 : Feed :=
  { title := some "Feed Four", image := none, itunes := none,
    items := [{ emptyItem with
      enclosure := some { url := some "https://cdn.example/four.mp3", type := none } }] }

def fetchC4 : String → FetchRes := fun _ => FetchRes.ok feedC4

/-- Claim C4 is false as stated: the cache key is NOT the decoded feed
URL — it is `episodes:` prefixed to the raw, still-encoded query
parameter.  Concretely, two requests whose `feedUrl` parameters decode to
the same feed URL (one plain, one percent-encoded) use different keys, so
the second request misses the warm cache and invokes the fetcher again. -/
theorem cacheKey_raw_param_cex :
    decodeURIComponent "http%3A%2F%2Fpods.example%2Ffeed.xml"
      = some "http://pods.example/feed.xml" ∧
    decodeURIComponent "http://pods.example/feed.xml"
      = some "http://pods.example/feed.xml" ∧
    cacheKey (some "http%3A%2F%2Fpods.example%2Ffeed.xml")
      ≠ "http://pods.example/feed.xml" ∧
    (processRequest [] (some "http://pods.example/feed.xml") fetchC4).fetched = true ∧
    (processRequest
      (processRequest [] (some "http://pods.example/feed.xml") fetchC4).cache
      (some "http%3A%2F%2Fpods.example%2Ffeed.xml") fetchC4).fetched = true := by
  exact ⟨rfl, rfl, by decide, rfl, rfl⟩

/-- Claim C4 amended: the cache key is `episodes:` plus the raw
(undecoded, untrimmed) `feedUrl` parameter, and two sequential requests
with the SAME raw parameter within the TTL window return identical
response bodies, the second one a cache hit that does not invoke the
fetcher (provided the first request produced a response at all). -/
theorem cache_idempotent_same_raw (c : Cache) (raw : Option String)
    (fetch : String → FetchRes)
    (h : (processRequest c raw fetch).resp ≠ none) :
    cacheKey raw = "episodes:" ++ raw.getD "undefined" ∧
    (processRequest (processRequest c raw fetch).cache raw fetch).fetched = false ∧
    ∃ st b, (processRequest c raw fetch).resp = some (st, b) ∧
      (processRequest (processRequest c raw fetch).cache raw fetch).resp
        = some (200, b) := by
  rcases resp_cached c raw fetch with hnone | ⟨st, b, hresp, hlook⟩
  · exact absurd hnone h
  · rw [processRequest_hit fetch hlook]
    exact ⟨rfl, rfl, st, b, hresp, rfl⟩

/-- Witness for the amended C4 at a concrete plain URL and a stub fetcher. -/
theorem cache_idempotent_same_raw_witness :
    (processRequest [] (some "https://pods.example/feed.xml") fetchC4).resp ≠ none ∧
    (processRequest
      (processRequest [] (some "https://pods.example/feed.xml") fetchC4).cache
      (some "https://pods.example/feed.xml") fetchC4).fetched = false :=
  ⟨by decide,
    (cache_idempotent_same_raw [] (some "https://pods.example/feed.xml") fetchC4
      (by decide)).2.1⟩

/-! ## C5: failed computations are memoized, not skipped -/

def fetchC5 : String → FetchRes := fun _ => FetchRes.error "getaddrinfo ENOTFOUND pods.example"

/-- Claim C5 is false: when the fetch behind the cache fails, the 404
error body IS stored in the cache for that key (the catch branch responds
through the overridden `res.json`, which caches every body), and the next
request for the same key is served from the cache without recomputing. -/
theorem failure_memoized_cex :
    (processRequest [] (some "http://pods.example/feed.xml") fetchC5).fetched = true ∧
    List.lookup (cacheKey (some "http://pods.example/feed.xml"))
      (processRequest [] (some "http://pods.example/feed.xml") fetchC5).cache
      = some (Body.errDetails "Feed not found or unavailable"
          "getaddrinfo ENOTFOUND pods.example") ∧
    (processRequest
      (processRequest [] (some "http://pods.example/feed.xml") fetchC5).cache
      (some "http://pods.example/feed.xml") fetchC5).fetched = false := by
  exact ⟨rfl, rfl, rfl⟩

/-- Claim C5 amended: if the computation behind the cache fails, the
failure does propagate to the caller as the 404 catch-branch response,
but that error body is cached under the key like any other body, and the
next request within the TTL replays the cached error body (as a 200 cache
hit) without invoking the fetcher. -/
theorem failure_body_cached (c : Cache) (s dec : String)
    (fetch : String → FetchRes) (m : String)
    (hcold : List.lookup (cacheKey (some s)) c = none)
    (hne : s.isEmpty = false)
    (hdec : decodeURIComponent s = some dec)
    (hurl : isHttpUrl (trimStr dec) = true)
    (hfail : fetch (trimStr dec) = FetchRes.error m) :
    (processRequest c (some s) fetch).fetched = true ∧
    (processRequest c (some s) fetch).resp
      = some (404, Body.errDetails "Feed not found or unavailable" m) ∧
    List.lookup (cacheKey (some s)) (processRequest c (some s) fetch).cache
      = some (Body.errDetails "Feed not found or unavailable" m) ∧
    (processRequest (processRequest c (some s) fetch).cache (some s) fetch).fetched
      = false ∧
    (processRequest (processRequest c (some s) fetch).cache (some s) fetch).resp
      = some (200, Body.errDetails "Feed not found or unavailable" m) := by
  have h1 : processRequest c (some s) fetch
      = { resp := some (404, Body.errDetails "Feed not found or unavailable" m)
          cache := (cacheKey (some s),
            Body.errDetails "Feed not found or unavailable" m) :: c
          fetched := true } := by
    simp only [processRequest, hcold, hne, hdec, hurl, hfail, handleFetchRes,
      Bool.false_eq_true, if_false, if_true]
  rw [h1]
  refine ⟨rfl, rfl, lookup_cons_self _ _ _, ?_, ?_⟩ <;>
    rw [processRequest_hit fetch (lookup_cons_self _ _ _)]

/-- Witness for the amended C5 at a concrete URL and failing fetcher. -/
theorem failure_body_cached_witness :
    List.lookup (cacheKey (some "http://dead.example/rss")) ([] : Cache) = none ∧
    (processRequest
      (processRequest [] (some "http://dead.example/rss") fetchC5).cache
      (some "http://dead.example/rss") fetchC5).resp
      = some (200, Body.errDetails "Feed not found or unavailable"
          "getaddrinfo ENOTFOUND pods.example") :=
  ⟨rfl,
    (failure_body_cached [] "http://dead.example/rss" "http://dead.example/rss"
      fetchC5 "getaddrinfo ENOTFOUND pods.example" rfl rfl rfl (by decide) rfl).2.2.2.2⟩

/-! ## C6: input validation before any network activity -/

/-- Claim C6: on a cache with no entry for the relevant key, a request
with a missing `feedUrl` parameter, or an empty one, returns the 400
"Missing feedUrl" error without invoking the fetcher; and a request whose
decoded, trimmed, non-empty `feedUrl` does not begin with an http/https
scheme (case-insensitive) returns the 400 "Invalid feed URL" error
without invoking the fetcher. -/
theorem input_validation_no_fetch (c : Cache) (fetch : String → FetchRes)
    (s dec : String)
    (h1 : List.lookup (cacheKey none) c = none)
    (h2 : List.lookup (cacheKey (some "")) c = none)
    (h3 : List.lookup (cacheKey (some s)) c = none)
    (hne : s.isEmpty = false)
    (hdec : decodeURIComponent s = some dec)
    (hbad : isHttpUrl (trimStr dec) = false) :
    (processRequest c none fetch).resp = some (400, Body.err "Missing feedUrl") ∧
    (processRequest c none fetch).fetched = false ∧
    (processRequest c (some "") fetch).resp = some (400, Body.err "Missing feedUrl") ∧
    (processRequest c (some "") fetch).fetched = false ∧
    (processRequest c (some s) fetch).resp = some (400, Body.err "Invalid feed URL") ∧
    (processRequest c (some s) fetch).fetched = false := by
  have e1 : processRequest c none fetch
      = { resp := some (400, Body.err "Missing feedUrl")
          cache := (cacheKey none, Body.err "Missing feedUrl") :: c
          fetched := false } := by
    unfold processRequest
    rw [h1]
  have e2 : processRequest c (some "") fetch
      = { resp := some (400, Body.err "Missing feedUrl")
          cache := (cacheKey (some ""), Body.err "Missing feedUrl") :: c
          fetched := false } := by
    unfold processRequest
    rw [h2]
    rfl
  have e3 : processRequest c (some s) fetch
      = { resp := some (400, Body.err "Invalid feed URL")
          cache := (cacheKey (some s), Body.err "Invalid feed URL") :: c
          fetched := false } := by
    simp only [processRequest, h3, hne, hdec, hbad, Bool.false_eq_true,
      if_false, if_true]
  rw [e1, e2, e3]
  exact ⟨rfl, rfl, rfl, rfl, rfl, rfl⟩

/-- Witness for C6 on the empty cache, with the spec's own example
`ftp://x` as the invalidly-schemed URL. -/
theorem input_validation_no_fetch_witness :
    isHttpUrl (trimStr "ftp://x") = false ∧
    (processRequest [] none fetchC4).resp = some (400, Body.err "Missing feedUrl") ∧
    (processRequest [] (some "ftp://x") fetchC4).resp
      = some (400, Body.err "Invalid feed URL") ∧
    (processRequest [] (some "ftp://x") fetchC4).fetched = false :=
  ⟨by decide,
    (input_validation_no_fetch [] fetchC4 "ftp://x" "ftp://x" rfl rfl rfl rfl rfl
      (by decide)).1,
    (input_validation_no_fetch [] fetchC4 "ftp://x" "ftp://x" rfl rfl rfl rfl rfl
      (by decide)).2.2.2.2.1,
    (input_validation_no_fetch [] fetchC4 "ftp://x" "ftp://x" rfl rfl rfl rfl rfl
      (by decide)).2.2.2.2.2⟩

end Pods
